import Mathlib

/-!
Verification development for the Doctor-Rec recommendation pipeline.

The repository has two front-ends over the same pipeline:
* `src/web/app.py` — a Flask endpoint `/predict` returning JSON;
* `src/app.py` — a Streamlit page running the same stages inline.

Both are embedded here.  External collaborators (the trained classifier and
the Google Places client) are modelled as an explicit environment `Env` of
pure fallible functions; a raised Python exception is an `Except.error`.
Calls to the external place-search provider are logged as `ExtCall` values
so that "no external call is issued" is expressible.
-/

namespace DoctorRec

/-! ## Data model (provider-side records, as consumed by the code) -/

/-- Geographic coordinate, `details['geometry']['location']`.  Coordinates are
opaque payload for the pipeline (never computed with), modelled as `Int`. -/
structure PlaceLoc where
  lat : Int
  lng : Int
deriving DecidableEq, Repr

/-- `details['geometry']`: the fields of the geometry object the code reads. -/
structure Geometry where
  location : PlaceLoc
deriving DecidableEq, Repr

/-- `details['opening_hours']`: object whose `open_now` key may be absent. -/
structure OpeningHours where
  open_now : Option Bool
deriving DecidableEq, Repr

/-- The detail record returned by `gmaps.place(...)['result']`; every field the
code reads is optional (a Python dict key that may be absent). -/
structure PlaceDetails where
  name : Option String
  formatted_address : Option String
  international_phone_number : Option String
  website : Option String
  rating : Option Int
  opening_hours : Option OpeningHours
  geometry : Option Geometry
deriving DecidableEq, Repr

/-- The empty dict `{}` used by `place_details.get('result', {})`. -/
def emptyDetails : PlaceDetails := ⟨none, none, none, none, none, none, none⟩

/-- A text-search result item; the code only reads `doctor['place_id']`. -/
structure PlaceCandidate where
  place_id : String
deriving DecidableEq, Repr

/-- One call made to the external place-search provider. -/
inductive ExtCall where
  | placesSearch (query : String)
  | placeDetail (place_id : String)
deriving DecidableEq, Repr

/-- The external world as seen by the pipeline: classifier inference,
`gmaps.places` text search and `gmaps.place` detail lookup.  `Except.error`
models a raised exception; the `Option` layers model responses whose
`results` / `result` key may be absent (`.get('results', [])`,
`.get('result', {})`). -/
structure Env where
  predict : List Nat → Except String String
  places : String → Except String (Option (List PlaceCandidate))
  place : String → Except String (Option PlaceDetails)

/-! ## Feature encoding

From `src/web/app.py` lines 76–81 and `src/app.py` lines 125–129:

    model_input = {symptom: 0 for symptom in symptoms}
    for symptom in user_symptoms:
        if symptom in model_input:
            model_input[symptom] = 1

The Python dict (insertion-ordered, keys = the vocabulary in order) is
modelled as an association list; the guarded assignment only ever updates
existing keys. -/

/-- `model_input[symptom] = 1` on an association list: update the entry whose
key matches, leave the rest. -/
def setSymptomOne (m : List (String × Nat)) (k : String) : List (String × Nat) :=
  m.map (fun p => if p.1 = k then (p.1, 1) else p)

/-- The feature-encoding loop of both front-ends. -/
def model_input (vocab user_symptoms : List String) : List (String × Nat) :=
  user_symptoms.foldl
    (fun m s => if (m.map Prod.fst).contains s then setSymptomOne m s else m)
    (vocab.map (fun s => (s, 0)))

/-- The feature vector that reaches `model.predict`: the dict's values in
key (vocabulary) order. -/
def featureVector (vocab user_symptoms : List String) : List Nat :=
  (model_input vocab user_symptoms).map Prod.snd

lemma map_fst_tag (vocab : List String) (f : String → Nat) :
    ((vocab.map (fun s => (s, f s))).map Prod.fst) = vocab := by
  induction vocab with
  | nil => rfl
  | cons a t ih => simp [ih]

lemma model_input_foldl_inv (us : List String) (p : String → Bool) (vocab : List String) :
    us.foldl
      (fun m s => if (m.map Prod.fst).contains s then setSymptomOne m s else m)
      (vocab.map (fun s => (s, if p s then 1 else 0))) =
    vocab.map (fun s => (s, if (p s || us.contains s) then 1 else 0)) := by
  induction us generalizing p with
  | nil => simp
  | cons a t ih =>
    rw [List.foldl_cons]
    by_cases hmem : vocab.contains a
    · have hstep :
          (if ((vocab.map (fun s => (s, if p s then 1 else 0))).map Prod.fst).contains a
            then setSymptomOne (vocab.map (fun s => (s, if p s then 1 else 0))) a
            else vocab.map (fun s => (s, if p s then 1 else 0))) =
          vocab.map (fun s => (s, if (p s || (s == a)) then 1 else 0)) := by
        rw [map_fst_tag, if_pos hmem, setSymptomOne, List.map_map]
        refine List.map_congr_left (fun s _ => ?_)
        by_cases hsa : s = a
        · simp [Function.comp, hsa]
        · simp [Function.comp, hsa]
      rw [hstep, ih]
      refine List.map_congr_left (fun s _ => ?_)
      by_cases hsa : s = a
      · simp [hsa]
      · simp [List.contains_cons, hsa, Bool.or_assoc]
    · rw [map_fst_tag, if_neg hmem, ih]
      refine List.map_congr_left (fun s hs => ?_)
      have hsa : ¬ s = a := fun h => hmem (by simpa [h] using List.elem_iff.mpr hs)
      simp [List.contains_cons, hsa]

/-- Closed form of the encoding loop: the dict maps each vocabulary symptom,
in vocabulary order, to 1 exactly when it was requested. -/
lemma model_input_eq (vocab us : List String) :
    model_input vocab us =
      vocab.map (fun s => (s, if us.contains s then 1 else 0)) := by
  have h0 : (vocab.map (fun s => (s, (0 : Nat)))) =
      vocab.map (fun s => (s, if (fun _ => false) s then 1 else 0)) := by
    simp
  rw [model_input, h0, model_input_foldl_inv]
  simp

/-! ## Specialty resolution

`specialty_map` is the static dict of `src/web/app.py` lines 40–47 and
`src/app.py` lines 135–144 (identical content; note the trailing space in
the key `'Hypertension '`, copied verbatim).  `resolveSpecialist` is
`specialty_map.get(prediction, 'General Practitioner')`. -/

def specialty_map : List (String × String) :=
  [("Fungal infection", "Dermatologist"), ("Allergy", "Allergist"),
   ("GERD", "Gastroenterologist"), ("Acne", "Dermatologist"),
   ("Pneumonia", "Pulmonologist"), ("Jaundice", "Gastroenterologist"),
   ("Migraine", "Neurologist"), ("Hypertension ", "Cardiologist"),
   ("Heart attack", "Cardiologist"), ("Paralysis (brain hemorrhage)", "Neurologist"),
   ("Chicken pox", "Dermatologist"), ("Malaria", "General Practitioner"),
   ("Dengue", "General Practitioner"), ("Typhoid", "General Practitioner")]

def resolveSpecialist (label : String) : String :=
  (specialty_map.lookup label).getD "General Practitioner"

lemma lookup_mem {m : List (String × String)} {l v : String}
    (h : m.lookup l = some v) : (l, v) ∈ m := by
  induction m with
  | nil => simp [List.lookup] at h
  | cons p t ih =>
    rw [List.lookup] at h
    by_cases hk : l = p.1
    · simp [hk] at h
      simp [← h, hk]
    · have : (l == p.1) = false := by simp [hk]
      rw [this] at h
      exact List.mem_cons_of_mem _ (ih h)

lemma lookup_eq_none_of_not_key {m : List (String × String)} {l : String}
    (h : ∀ p ∈ m, p.1 ≠ l) : m.lookup l = none := by
  induction m with
  | nil => rfl
  | cons p t ih =>
    rw [List.lookup]
    have : (l == p.1) = false := by
      have hne : p.1 ≠ l := h p (List.mem_cons_self p t)
      simp [Ne.symm hne]
    rw [this]
    exact ih (fun q hq => h q (List.mem_cons_of_mem _ hq))

/-! ## Detail enrichment and response assembly (Flask front-end)

From `src/web/app.py` lines 86–126. -/

/-- Python `name.replace(' ', '+')` (single-character pattern: a per-character
substitution). -/
def replaceSpaces (s : String) : String :=
  String.mk (s.data.map (fun c => if c = ' ' then '+' else c))

/-- The open-now derivation shared by both front-ends
(`src/web/app.py` lines 100–104, `src/app.py` lines 197–200):

    open_now_status = "Status unknown"
    if 'opening_hours' in details:
        open_now = details['opening_hours'].get('open_now', False)
        open_now_status = "🟢 Open now" if open_now else "🔴 Closed"
-/
def open_now_status (details : PlaceDetails) : String :=
  match details.opening_hours with
  | none => "Status unknown"
  | some oh => if oh.open_now.getD false then "🟢 Open now" else "🔴 Closed"

/-- One entry of the Flask `doctors` JSON array.  `Option` models JSON
nullability: `website` is emitted as-is (possibly null), `location` as the
possibly-empty `geometry.location` object; `rating` is the provider's number
or the placeholder string. -/
structure DoctorOut where
  name : Option String
  address : Option String
  phone : Option String
  website : Option String
  rating : Option (Int ⊕ String)
  open_now_status : Option String
  gmaps_url : Option String
  location : Option PlaceLoc
deriving DecidableEq, Repr

/-- `doctors_details.append({...})` of `src/web/app.py` lines 106–115. -/
def mkDoctorOut (doctor : PlaceCandidate) (details : PlaceDetails) : DoctorOut :=
  { name := some (details.name.getD "N/A")
    address := some (details.formatted_address.getD "Address not available")
    phone := some (details.international_phone_number.getD "Phone not available")
    website := details.website
    rating := some (match details.rating with
      | some r => Sum.inl r
      | none => Sum.inr "N/A")
    open_now_status := some (open_now_status details)
    gmaps_url := some ("https://www.google.com/maps/search/?api=1&query=" ++
      replaceSpaces (details.name.getD "") ++ "&query_place_id=" ++ doctor.place_id)
    location := (details.geometry.map Geometry.location) }

/-- The Flask detail loop (`src/web/app.py` lines 91–115): sequential fetches;
a raised exception aborts the loop and propagates (the partially built
`doctors_details` is discarded by the outer handler).  Also returns the
detail calls issued. -/
def doctors_details_loop (env : Env) :
    List PlaceCandidate → Except String (List DoctorOut) × List ExtCall
  | [] => (Except.ok [], [])
  | d :: rest =>
    match env.place d.place_id with
    | Except.error e => (Except.error e, [ExtCall.placeDetail d.place_id])
    | Except.ok resp =>
      let out := mkDoctorOut d (resp.getD emptyDetails)
      let r := doctors_details_loop env rest
      (match r.1 with
       | Except.error e => Except.error e
       | Except.ok outs => Except.ok (out :: outs),
       ExtCall.placeDetail d.place_id :: r.2)

/-- The three response shapes of the `/predict` endpoint: success JSON,
HTTP 400 (caller input error), HTTP 500 (server error). -/
inductive FlaskResp where
  | success (predicted_disease specialist : String) (doctors : List DoctorOut)
  | clientError (msg : String)
  | serverError (msg : String)
deriving DecidableEq, Repr

/-- The `/predict` handler of `src/web/app.py` lines 61–126, paired with the
log of place-search calls issued. -/
def flaskPredict (env : Env) (vocab user_symptoms : List String)
    (user_location : String) : FlaskResp × List ExtCall :=
  if user_symptoms = [] ∨ user_location = "" then
    (FlaskResp.clientError "Missing symptoms or location.", [])
  else
    match env.predict (featureVector vocab user_symptoms) with
    | Except.error e => (FlaskResp.serverError e, [])
    | Except.ok prediction =>
      let specialist := resolveSpecialist prediction
      let query := specialist ++ " in " ++ user_location
      match env.places query with
      | Except.error e => (FlaskResp.serverError e, [ExtCall.placesSearch query])
      | Except.ok raw =>
        let doctors_list := (raw.getD []).take 5
        let r := doctors_details_loop env doctors_list
        (match r.1 with
         | Except.error e => FlaskResp.serverError e
         | Except.ok doctors_details =>
            FlaskResp.success prediction specialist doctors_details,
         ExtCall.placesSearch query :: r.2)

/-! ## Streamlit front-end (`src/app.py` lines 105–227)

The button handler checks the two inputs, runs the pipeline inside a
`st.status` block whose `except` clause records an error message while
keeping whatever variables were already assigned, and then a separate
display step renders from those variables. -/

/-- A candidate dict as mutated by the Streamlit loop: `doctor['details']`
is present only once the fetch for this candidate has completed. -/
structure StDoctor where
  place_id : String
  details : Option PlaceDetails
deriving DecidableEq, Repr

/-- An entry of `map_data_list` (`src/app.py` lines 167–168). -/
structure MapPoint where
  name : String
  lat : Int
  lon : Int
deriving DecidableEq, Repr

/-- The variables of `src/app.py` lines 113–117 as they stand after the
`st.status` block (possibly partially assigned when an exception fired). -/
structure StState where
  prediction : Option String
  specialist : Option String
  doctors_list : List StDoctor
  map_data_list : List MapPoint
  errorMsg : Option String
deriving DecidableEq, Repr

/-- The Streamlit detail loop (`src/app.py` lines 154–168): mutates the
already-assigned `doctors_list` in place; an exception stops the loop but
every candidate stays in the list, later ones without `details`. -/
def stLoop (env : Env) :
    List PlaceCandidate → List StDoctor × List MapPoint × Option String × List ExtCall
  | [] => ([], [], none, [])
  | d :: rest =>
    match env.place d.place_id with
    | Except.error e =>
      (⟨d.place_id, none⟩ :: rest.map (fun r => ⟨r.place_id, none⟩),
       [], some e, [ExtCall.placeDetail d.place_id])
    | Except.ok resp =>
      let details := resp.getD emptyDetails
      let mp : List MapPoint :=
        match details.geometry with
        | some g => [⟨details.name.getD "N/A", g.location.lat, g.location.lng⟩]
        | none => []
      let r := stLoop env rest
      (⟨d.place_id, some details⟩ :: r.1, mp ++ r.2.1, r.2.2.1,
       ExtCall.placeDetail d.place_id :: r.2.2.2)

/-- The `try` block of `src/app.py` lines 121–174 (the `except` clause turns
the exception into `st.error(f"An error occurred: {e}")` while keeping the
variables assigned so far). -/
def stRun (env : Env) (vocab user_symptoms : List String)
    (user_location : String) : StState × List ExtCall :=
  match env.predict (featureVector vocab user_symptoms) with
  | Except.error e => (⟨none, none, [], [], some ("An error occurred: " ++ e)⟩, [])
  | Except.ok prediction =>
    let specialist := resolveSpecialist prediction
    let query := specialist ++ " in " ++ user_location
    match env.places query with
    | Except.error e =>
      (⟨some prediction, some specialist, [], [],
        some ("An error occurred: " ++ e)⟩, [ExtCall.placesSearch query])
    | Except.ok raw =>
      let doctors_list := (raw.getD []).take 5
      let r := stLoop env doctors_list
      (⟨some prediction, some specialist, r.1, r.2.1,
        (r.2.2.1).map (fun e => "An error occurred: " ++ e)⟩,
       ExtCall.placesSearch query :: r.2.2.2)

/-- Outcome of clicking "Find a Doctor" (`src/app.py` lines 105–110):
the two guard warnings, or the pipeline state. -/
inductive StResult where
  | warnNoSymptoms
  | warnNoLocation
  | ran (st : StState)
deriving DecidableEq, Repr

/-- The button handler: `if not user_symptoms: ... elif not user_location: ...
else: ...` paired with the place-search calls issued. -/
def streamlitHandler (env : Env) (vocab user_symptoms : List String)
    (user_location : String) : StResult × List ExtCall :=
  if user_symptoms = [] then (StResult.warnNoSymptoms, [])
  else if user_location = "" then (StResult.warnNoLocation, [])
  else
    let r := stRun env vocab user_symptoms user_location
    (StResult.ran r.1, r.2)

/-- A doctor card as rendered by `src/app.py` lines 188–218, from
`doctor.get('details', {})` with the same defaults as the Flask entry. -/
structure DoctorCard where
  name : String
  rating : Option Int
  open_now : String
  address : String
  phone : String
  websiteButton : Option String
  place_id : String
deriving DecidableEq, Repr

/-- Python truthiness of an optional string (`if prediction and specialist:`,
`if website:`): present and non-empty. -/
def truthyOpt (o : Option String) : Bool :=
  match o with
  | none => false
  | some s => !(s == "")

/-- Build one displayed card (`src/app.py` lines 188–218). -/
def mkCard (d : StDoctor) : DoctorCard :=
  let details := d.details.getD emptyDetails
  { name := details.name.getD "N/A"
    rating := details.rating
    open_now := open_now_status details
    address := details.formatted_address.getD "Address not available"
    phone := details.international_phone_number.getD "Phone not available"
    websiteButton :=
      match details.website with
      | some w => if w == "" then none else some w
      | none => none
    place_id := d.place_id }

/-- What the results column ends up showing (`src/app.py` lines 172–224):
the error banner from the `except` clause, and — whenever `prediction and
specialist` is truthy — the prediction, specialist, cards and map. -/
structure StDisplay where
  shownPrediction : Option String
  shownSpecialist : Option String
  noDoctorsWarning : Bool
  doctorCards : List DoctorCard
  mapShown : Bool
  errorShown : Option String
deriving DecidableEq, Repr

/-- The display step (`src/app.py` lines 172–224), run after the status
block regardless of whether it errored. -/
def stDisplay (st : StState) : StDisplay :=
  if truthyOpt st.prediction && truthyOpt st.specialist then
    { shownPrediction := st.prediction
      shownSpecialist := st.specialist
      noDoctorsWarning := st.doctors_list.isEmpty
      doctorCards := if st.doctors_list.isEmpty then [] else st.doctors_list.map mkCard
      mapShown := !st.doctors_list.isEmpty && !st.map_data_list.isEmpty
      errorShown := st.errorMsg }
  else
    { shownPrediction := none
      shownSpecialist := none
      noDoctorsWarning := false
      doctorCards := []
      mapShown := false
      errorShown := st.errorMsg }

/-! ## Pipeline lemmas -/

lemma resolveSpecialist_ne_empty (l : String) : resolveSpecialist l ≠ "" := by
  rw [resolveSpecialist]
  cases hlk : specialty_map.lookup l with
  | none => simp
  | some v =>
    have hv : (l, v) ∈ specialty_map := lookup_mem hlk
    have hall : ∀ p ∈ specialty_map, p.2 ≠ "" := by decide
    simpa using hall (l, v) hv

/-- A successful detail loop returns one output per candidate, in candidate
order, each the assembled record of that candidate's own fetched detail. -/
lemma doctors_details_loop_ok {env : Env} {cs : List PlaceCandidate}
    {docs : List DoctorOut}
    (h : (doctors_details_loop env cs).1 = Except.ok docs) :
    docs.length = cs.length ∧
    ∀ i (hi : i < cs.length) (hi' : i < docs.length),
      ∃ resp, env.place (cs.get ⟨i, hi⟩).place_id = Except.ok resp ∧
        docs.get ⟨i, hi'⟩ = mkDoctorOut (cs.get ⟨i, hi⟩) (resp.getD emptyDetails) := by
  induction cs generalizing docs with
  | nil =>
    rw [doctors_details_loop] at h
    obtain rfl : docs = [] := by simpa using h.symm
    exact ⟨rfl, fun i hi => absurd hi (Nat.not_lt_zero i)⟩
  | cons d rest ih =>
    rw [doctors_details_loop] at h
    cases hp : env.place d.place_id with
    | error e => rw [hp] at h; simp at h
    | ok resp =>
      rw [hp] at h
      dsimp only at h
      cases hr : (doctors_details_loop env rest).1 with
      | error e => rw [hr] at h; simp at h
      | ok outs =>
        rw [hr] at h
        dsimp only at h
        obtain rfl : docs = mkDoctorOut d (resp.getD emptyDetails) :: outs := by
          simpa using h.symm
        obtain ⟨hlen, hpt⟩ := ih hr
        refine ⟨by simpa using hlen, ?_⟩
        intro i hi hi'
        cases i with
        | zero => exact ⟨resp, hp, rfl⟩
        | succ n =>
          exact hpt n (Nat.lt_of_succ_lt_succ hi) (Nat.lt_of_succ_lt_succ hi')

/-- Every entry of a successful detail loop is an assembled record. -/
lemma doctors_details_loop_ok_mem {env : Env} {cs : List PlaceCandidate}
    {docs : List DoctorOut}
    (h : (doctors_details_loop env cs).1 = Except.ok docs) :
    ∀ d ∈ docs, ∃ cand det, d = mkDoctorOut cand det := by
  induction cs generalizing docs with
  | nil =>
    rw [doctors_details_loop] at h
    obtain rfl : docs = [] := by simpa using h.symm
    simp
  | cons c rest ih =>
    rw [doctors_details_loop] at h
    cases hp : env.place c.place_id with
    | error e => rw [hp] at h; simp at h
    | ok resp =>
      rw [hp] at h
      dsimp only at h
      cases hr : (doctors_details_loop env rest).1 with
      | error e => rw [hr] at h; simp at h
      | ok outs =>
        rw [hr] at h
        dsimp only at h
        obtain rfl : docs = mkDoctorOut c (resp.getD emptyDetails) :: outs := by
          simpa using h.symm
        intro d hd
        rcases List.mem_cons.mp hd with rfl | hd'
        · exact ⟨c, resp.getD emptyDetails, rfl⟩
        · exact ih hr d hd'

/-- Inversion of a successful `/predict` response. -/
lemma flaskPredict_success_inv {env : Env} {vocab s : List String}
    {l p sp : String} {docs : List DoctorOut}
    (h : (flaskPredict env vocab s l).1 = FlaskResp.success p sp docs) :
    s ≠ [] ∧ l ≠ "" ∧
    env.predict (featureVector vocab s) = Except.ok p ∧
    sp = resolveSpecialist p ∧
    ∃ raw, env.places (sp ++ " in " ++ l) = Except.ok raw ∧
      (doctors_details_loop env ((raw.getD []).take 5)).1 = Except.ok docs := by
  by_cases hguard : s = [] ∨ l = ""
  · rw [flaskPredict, if_pos hguard] at h
    simp at h
  · rw [flaskPredict, if_neg hguard] at h
    push_neg at hguard
    cases hp : env.predict (featureVector vocab s) with
    | error e => rw [hp] at h; simp at h
    | ok pr =>
      rw [hp] at h
      dsimp only at h
      cases hq : env.places (resolveSpecialist pr ++ " in " ++ l) with
      | error e => rw [hq] at h; simp at h
      | ok raw =>
        rw [hq] at h
        dsimp only at h
        cases hr : (doctors_details_loop env ((raw.getD []).take 5)).1 with
        | error e => rw [hr] at h; simp at h
        | ok outs =>
          rw [hr] at h
          dsimp only at h
          rw [FlaskResp.success.injEq] at h
          obtain ⟨h1, h2, h3⟩ := h
          subst h1
          subst h2
          subst h3
          exact ⟨hguard.1, hguard.2, rfl, rfl, raw, hq, hr⟩

/-- The Streamlit loop keeps every candidate in `doctors_list`, error or not. -/
lemma stLoop_length (env : Env) (cs : List PlaceCandidate) :
    (stLoop env cs).1.length = cs.length := by
  induction cs with
  | nil => rfl
  | cons d rest ih =>
    rw [stLoop]
    cases hp : env.place d.place_id with
    | error e => simp
    | ok resp => simpa using ih

/-- The two front-ends' sequential detail loops surface the same first
exception. -/
lemma stLoop_error_eq (env : Env) (cs : List PlaceCandidate) :
    (stLoop env cs).2.2.1 =
      match (doctors_details_loop env cs).1 with
      | Except.error e => some e
      | Except.ok _ => none := by
  induction cs with
  | nil => rfl
  | cons d rest ih =>
    rw [stLoop, doctors_details_loop]
    cases hp : env.place d.place_id with
    | error e => simp
    | ok resp =>
      dsimp only
      rw [ih]
      cases hr : (doctors_details_loop env rest).1 <;> simp

/-! ## Claim theorems -/

/-- C1: for every symptom set `S` with `|S| ≥ 1` and vocabulary `V`, the
feature encoding produces a vector of length `|V|`, ordered as `V`, whose
entry for a vocabulary symptom is 1 exactly when that symptom is in `S`;
requested symptoms not in `V` are silently ignored and cause no error. -/
theorem C1_feature_encoding (V S : List String) (hS : 1 ≤ S.length) :
    (model_input V S).length = V.length ∧
    (model_input V S).map Prod.fst = V ∧
    (∀ i (h : i < V.length) (h' : i < (model_input V S).length),
      (model_input V S).get ⟨i, h'⟩ =
        (V.get ⟨i, h⟩, if S.contains (V.get ⟨i, h⟩) then 1 else 0)) ∧
    (∀ x, x ∉ V → model_input V (x :: S) = model_input V S) := by
  refine ⟨?_, ?_, ?_, ?_⟩
  · rw [model_input_eq]; simp
  · rw [model_input_eq]; exact map_fst_tag V _
  · intro i h h'
    simp [model_input_eq]
  · intro x hx
    rw [model_input_eq, model_input_eq]
    refine List.map_congr_left (fun s hs => ?_)
    have hsx : ¬ s = x := fun he => hx (he ▸ hs)
    simp [List.contains_cons, hsx]

/-- Witness for C1 at a concrete vocabulary and symptom set. -/
theorem C1_feature_encoding_witness :
    (model_input ["itching", "skin_rash", "headache"] ["skin_rash", "fever"]).map
      Prod.fst = ["itching", "skin_rash", "headache"] :=
  (C1_feature_encoding ["itching", "skin_rash", "headache"] ["skin_rash", "fever"]
    (by decide)).2.1

/-- C5: specialty resolution is a pure total lookup: it returns the mapped
specialist for a key of the static map ("Migraine" resolves to
"Neurologist") and the fallback "General Practitioner" otherwise. -/
theorem C5_specialty_resolution :
    resolveSpecialist "Migraine" = "Neurologist" ∧
    (∀ l v, (l, v) ∈ specialty_map → resolveSpecialist l = v) ∧
    (∀ l, (∀ p ∈ specialty_map, p.1 ≠ l) →
      resolveSpecialist l = "General Practitioner") := by
  refine ⟨by decide, ?_, ?_⟩
  · intro l v hm
    have hall : ∀ p ∈ specialty_map, resolveSpecialist p.1 = p.2 := by decide
    exact hall (l, v) hm
  · intro l hl
    rw [resolveSpecialist, lookup_eq_none_of_not_key hl]
    rfl

/-- Witness for C5: an unmapped label (note the map's key carries a trailing
space, so the plain "Hypertension" falls back) and a mapped one. -/
theorem C5_specialty_resolution_witness :
    resolveSpecialist "Hypertension" = "General Practitioner" ∧
    resolveSpecialist "GERD" = "Gastroenterologist" :=
  ⟨C5_specialty_resolution.2.2 "Hypertension" (by decide),
   C5_specialty_resolution.2.1 "GERD" "Gastroenterologist" (by decide)⟩

/-- C9: the open-now status is tri-state: open or closed exactly as given by
the provider's `open_now` boolean, and unknown whenever opening-hours data
is absent from the detail response. -/
theorem C9_open_now_tristate (d : PlaceDetails) :
    (d.opening_hours = none → open_now_status d = "Status unknown") ∧
    (∀ b : Bool, d.opening_hours = some ⟨some b⟩ →
      open_now_status d = if b then "🟢 Open now" else "🔴 Closed") := by
  constructor
  · intro h
    simp [open_now_status, h]
  · intro b h
    cases b <;> simp [open_now_status, h]

/-- Witness for C9: absent opening hours and a present `open_now = true`. -/
theorem C9_open_now_tristate_witness :
    open_now_status emptyDetails = "Status unknown" ∧
    open_now_status ⟨none, none, none, none, none, some ⟨some true⟩, none⟩ =
      "🟢 Open now" :=
  ⟨(C9_open_now_tristate emptyDetails).1 rfl,
   by simpa using
     (C9_open_now_tristate ⟨none, none, none, none, none, some ⟨some true⟩, none⟩).2
       true rfl⟩

/-- C4: for every successful request, the enriched output has exactly one
entry per capped search candidate (length ≤ 5), and entry `i` is assembled
from candidate `i`'s own detail response, so the output keeps the search
provider's order (the loop writes by candidate position; completion order
cannot reorder it). -/
theorem C4_output_matches_candidates (env : Env) (vocab s : List String)
    (l p sp : String) (docs : List DoctorOut)
    (h : (flaskPredict env vocab s l).1 = FlaskResp.success p sp docs) :
    docs.length ≤ 5 ∧
    ∃ raw, env.places (sp ++ " in " ++ l) = Except.ok raw ∧
      docs.length = ((raw.getD []).take 5).length ∧
      ∀ i (hi : i < ((raw.getD []).take 5).length) (hi' : i < docs.length),
        ∃ resp,
          env.place (((raw.getD []).take 5).get ⟨i, hi⟩).place_id = Except.ok resp ∧
          docs.get ⟨i, hi'⟩ =
            mkDoctorOut (((raw.getD []).take 5).get ⟨i, hi⟩)
              (resp.getD emptyDetails) := by
  obtain ⟨-, -, -, -, raw, hq, hloop⟩ := flaskPredict_success_inv h
  obtain ⟨hlen, hpt⟩ := doctors_details_loop_ok hloop
  refine ⟨?_, raw, hq, hlen, hpt⟩
  rw [hlen, List.length_take]
  exact min_le_left _ _

/-- Concrete search result and detail responses used to witness C4 and C10. -/
def detailsA : PlaceDetails :=
  ⟨some "Dr Rao Clinic", some "12 MG Road", some "+91 11 5555 0101",
   some "https://rao.example", some 4, some ⟨some true⟩,
   some ⟨⟨28, 77⟩⟩⟩

/-- Environment with one candidate whose detail fetch succeeds. -/
def envOneDoctor : Env :=
  ⟨fun _ => Except.ok "Migraine",
   fun _ => Except.ok (some [⟨"a1"⟩]),
   fun _ => Except.ok (some detailsA)⟩

/-- Witness for C4 at a concrete one-candidate run. -/
theorem C4_output_matches_candidates_witness :
    [mkDoctorOut ⟨"a1"⟩ detailsA].length ≤ 5 :=
  (C4_output_matches_candidates envOneDoctor ["headache"] ["headache"] "Delhi"
    "Migraine" "Neurologist" [mkDoctorOut ⟨"a1"⟩ detailsA] (by decide)).1

/-- C10: every doctor entry of a successful `/predict` response has non-null
name, address, phone, rating and open-now fields, with provider-omitted
values replaced by the fixed placeholders; `website` is passed through
(possibly null) and `location` is the possibly-absent geometry location. -/
theorem C10_doctor_fields_nonnull (env : Env) (vocab s : List String)
    (l p sp : String) (docs : List DoctorOut)
    (h : (flaskPredict env vocab s l).1 = FlaskResp.success p sp docs) :
    ∀ d ∈ docs, ∃ cand det,
      d = mkDoctorOut cand det ∧
      d.name = some (det.name.getD "N/A") ∧
      d.address = some (det.formatted_address.getD "Address not available") ∧
      d.phone = some (det.international_phone_number.getD "Phone not available") ∧
      d.rating = some (match det.rating with
        | some r => Sum.inl r
        | none => Sum.inr "N/A") ∧
      d.open_now_status = some (open_now_status det) ∧
      (det.opening_hours = none → d.open_now_status = some "Status unknown") ∧
      d.website = det.website ∧
      d.location = det.geometry.map Geometry.location := by
  obtain ⟨-, -, -, -, raw, -, hloop⟩ := flaskPredict_success_inv h
  intro d hd
  obtain ⟨cand, det, rfl⟩ := doctors_details_loop_ok_mem hloop d hd
  refine ⟨cand, det, rfl, rfl, rfl, rfl, rfl, rfl, ?_, rfl, rfl⟩
  intro hoh
  simp [mkDoctorOut, open_now_status, hoh]

/-- Detail record with every optional field absent, to witness the
placeholders of C10. -/
def detailsBare : PlaceDetails := emptyDetails

/-- Environment with one candidate whose detail response is the empty dict. -/
def envBareDoctor : Env :=
  ⟨fun _ => Except.ok "Migraine",
   fun _ => Except.ok (some [⟨"b1"⟩]),
   fun _ => Except.ok (some detailsBare)⟩

/-- Witness for C10: a provider response omitting every field still yields
an entry whose five required fields carry the fixed placeholder strings. -/
theorem C10_doctor_fields_nonnull_witness :
    ∃ cand det,
      mkDoctorOut ⟨"b1"⟩ detailsBare = mkDoctorOut cand det ∧
      (mkDoctorOut ⟨"b1"⟩ detailsBare).name = some (det.name.getD "N/A") ∧
      (mkDoctorOut ⟨"b1"⟩ detailsBare).address =
        some (det.formatted_address.getD "Address not available") ∧
      (mkDoctorOut ⟨"b1"⟩ detailsBare).phone =
        some (det.international_phone_number.getD "Phone not available") ∧
      (mkDoctorOut ⟨"b1"⟩ detailsBare).rating = some (match det.rating with
        | some r => Sum.inl r
        | none => Sum.inr "N/A") ∧
      (mkDoctorOut ⟨"b1"⟩ detailsBare).open_now_status =
        some (open_now_status det) ∧
      (det.opening_hours = none →
        (mkDoctorOut ⟨"b1"⟩ detailsBare).open_now_status =
          some "Status unknown") ∧
      (mkDoctorOut ⟨"b1"⟩ detailsBare).website = det.website ∧
      (mkDoctorOut ⟨"b1"⟩ detailsBare).location =
        det.geometry.map Geometry.location :=
  C10_doctor_fields_nonnull envBareDoctor ["headache"] ["headache"] "Delhi"
    "Migraine" "Neurologist" [mkDoctorOut ⟨"b1"⟩ detailsBare] (by decide)
    (mkDoctorOut ⟨"b1"⟩ detailsBare) (by simp)

/-- C8: a successful search with zero candidates completes as a success:
the Flask response is the success shape with an empty doctors list (and in
particular is neither error shape), and the Streamlit run ends with empty
`doctors_list` and `map_data_list`, no error, and the explicit
"no doctors found" warning rendered. -/
theorem C8_zero_candidates_success (env : Env) (vocab s : List String)
    (l pr : String) (hs : s ≠ []) (hl : l ≠ "") (hpr : pr ≠ "")
    (hp : env.predict (featureVector vocab s) = Except.ok pr)
    (hq : env.places (resolveSpecialist pr ++ " in " ++ l) =
      Except.ok (some [])) :
    (flaskPredict env vocab s l).1 =
      FlaskResp.success pr (resolveSpecialist pr) [] ∧
    (∀ m, (flaskPredict env vocab s l).1 ≠ FlaskResp.clientError m) ∧
    (∀ m, (flaskPredict env vocab s l).1 ≠ FlaskResp.serverError m) ∧
    (stRun env vocab s l).1.doctors_list = [] ∧
    (stRun env vocab s l).1.map_data_list = [] ∧
    (stRun env vocab s l).1.errorMsg = none ∧
    (stDisplay (stRun env vocab s l).1).noDoctorsWarning = true ∧
    (stDisplay (stRun env vocab s l).1).doctorCards = [] ∧
    (stDisplay (stRun env vocab s l).1).shownPrediction = some pr ∧
    (stDisplay (stRun env vocab s l).1).errorShown = none := by
  have hflask : (flaskPredict env vocab s l).1 =
      FlaskResp.success pr (resolveSpecialist pr) [] := by
    rw [flaskPredict, if_neg (not_or.mpr ⟨hs, hl⟩), hp]
    dsimp only
    rw [hq]
    rfl
  have hst : (stRun env vocab s l).1 =
      ⟨some pr, some (resolveSpecialist pr), [], [], none⟩ := by
    rw [stRun, hp]
    dsimp only
    rw [hq]
    rfl
  have ht1 : truthyOpt (some pr) = true := by simp [truthyOpt, hpr]
  have ht2 : truthyOpt (some (resolveSpecialist pr)) = true := by
    simp [truthyOpt, resolveSpecialist_ne_empty pr]
  refine ⟨hflask, ?_, ?_, ?_, ?_, ?_, ?_, ?_, ?_, ?_⟩
  · intro m; rw [hflask]; simp
  · intro m; rw [hflask]; simp
  · rw [hst]
  · rw [hst]
  · rw [hst]
  · rw [hst]; simp [stDisplay, ht1, ht2]
  · rw [hst]; simp [stDisplay, ht1, ht2]
  · rw [hst]; simp [stDisplay, ht1, ht2]
  · rw [hst]; simp [stDisplay, ht1, ht2]

/-- Environment whose text search succeeds with zero candidates. -/
def envNoResults : Env :=
  ⟨fun _ => Except.ok "Migraine",
   fun _ => Except.ok (some []),
   fun _ => Except.error "unused"⟩

/-- Witness for C8 at a concrete zero-candidate run. -/
theorem C8_zero_candidates_success_witness :
    (flaskPredict envNoResults ["headache"] ["headache"] "Delhi").1 =
      FlaskResp.success "Migraine" "Neurologist" [] ∧
    (stDisplay (stRun envNoResults ["headache"] ["headache"] "Delhi").1).noDoctorsWarning
      = true := by
  have h := C8_zero_candidates_success envNoResults ["headache"] ["headache"]
    "Delhi" "Migraine" (by decide) (by decide) (by decide) rfl rfl
  refine ⟨?_, h.2.2.2.2.2.2.1⟩
  have he : resolveSpecialist "Migraine" = "Neurologist" := by decide
  rw [← he]
  exact h.1

/-- Environment with five candidates where exactly one detail fetch (the
third) fails with a transient error; the others succeed with full detail. -/
def envOneFetchFails : Env :=
  ⟨fun _ => Except.ok "Migraine",
   fun _ => Except.ok (some [⟨"p0"⟩, ⟨"p1"⟩, ⟨"p2"⟩, ⟨"p3"⟩, ⟨"p4"⟩]),
   fun pid => if pid = "p2" then Except.error "transient error"
     else Except.ok (some detailsA)⟩

/-- C2 counterexample: with exactly one transient detail-fetch failure among
five, the batch does not succeed — the `/predict` handler returns the
structured 500 error and no doctor list at all. -/
theorem C2_counterexample :
    (flaskPredict envOneFetchFails ["headache"] ["headache"] "Delhi").1 =
      FlaskResp.serverError "transient error" ∧
    ∀ p sp docs,
      (flaskPredict envOneFetchFails ["headache"] ["headache"] "Delhi").1 ≠
        FlaskResp.success p sp docs := by
  have h : (flaskPredict envOneFetchFails ["headache"] ["headache"] "Delhi").1 =
      FlaskResp.serverError "transient error" := by decide
  refine ⟨h, fun p sp docs hc => ?_⟩
  rw [h] at hc
  exact FlaskResp.noConfusion hc

/-- C2 amended: a detail-fetch failure is not tolerated — the Flask request
fails as a whole with that error (no degraded candidate), while the
Streamlit page keeps every candidate in its list (already-fetched ones with
detail, the failing and later ones without) and shows an error banner with
the same exception. -/
theorem C2_fetch_failure_aborts (env : Env) (vocab s : List String)
    (l pr e : String) (raw : Option (List PlaceCandidate))
    (hs : s ≠ []) (hl : l ≠ "")
    (hp : env.predict (featureVector vocab s) = Except.ok pr)
    (hq : env.places (resolveSpecialist pr ++ " in " ++ l) = Except.ok raw)
    (he : (doctors_details_loop env ((raw.getD []).take 5)).1 =
      Except.error e) :
    (flaskPredict env vocab s l).1 = FlaskResp.serverError e ∧
    (∀ p sp docs,
      (flaskPredict env vocab s l).1 ≠ FlaskResp.success p sp docs) ∧
    (stRun env vocab s l).1.doctors_list.length =
      ((raw.getD []).take 5).length ∧
    (stRun env vocab s l).1.errorMsg = some ("An error occurred: " ++ e) := by
  have hflask : (flaskPredict env vocab s l).1 = FlaskResp.serverError e := by
    rw [flaskPredict, if_neg (not_or.mpr ⟨hs, hl⟩), hp]
    dsimp only
    rw [hq]
    dsimp only
    rw [he]
  have hstpair : (stRun env vocab s l).1 =
      ⟨some pr, some (resolveSpecialist pr),
       (stLoop env ((raw.getD []).take 5)).1,
       (stLoop env ((raw.getD []).take 5)).2.1,
       ((stLoop env ((raw.getD []).take 5)).2.2.1).map
         (fun e => "An error occurred: " ++ e)⟩ := by
    rw [stRun, hp]
    dsimp only
    rw [hq]
  refine ⟨hflask, ?_, ?_, ?_⟩
  · intro p sp docs hc
    rw [hflask] at hc
    exact FlaskResp.noConfusion hc
  · rw [hstpair]
    exact stLoop_length env _
  · rw [hstpair]
    dsimp only
    rw [stLoop_error_eq, he]
    rfl

/-- Witness for C2's amended theorem at the one-failing-fetch environment. -/
theorem C2_fetch_failure_aborts_witness :
    (flaskPredict envOneFetchFails ["headache"] ["headache"] "Delhi").1 =
      FlaskResp.serverError "transient error" ∧
    (stRun envOneFetchFails ["headache"] ["headache"] "Delhi").1.errorMsg =
      some ("An error occurred: " ++ "transient error") := by
  have h := C2_fetch_failure_aborts envOneFetchFails ["headache"] ["headache"]
    "Delhi" "Migraine" "transient error"
    (some [⟨"p0"⟩, ⟨"p1"⟩, ⟨"p2"⟩, ⟨"p3"⟩, ⟨"p4"⟩])
    (by decide) (by decide) rfl rfl rfl
  exact ⟨h.1, h.2.2.2⟩

/-- Environment whose text search raises after a successful classification. -/
def envSearchFails : Env :=
  ⟨fun _ => Except.ok "Migraine",
   fun _ => Except.error "network down",
   fun _ => Except.ok none⟩

/-- C3 counterexample: when the search stage raises after classification,
the Streamlit page shows the predicted disease and specialist *alongside*
the error banner — the caller-visible result is not the error alone. -/
theorem C3_counterexample :
    (stDisplay (stRun envSearchFails ["headache"] ["headache"] "Delhi").1).errorShown =
      some "An error occurred: network down" ∧
    (stDisplay (stRun envSearchFails ["headache"] ["headache"] "Delhi").1).shownPrediction =
      some "Migraine" ∧
    (stDisplay (stRun envSearchFails ["headache"] ["headache"] "Delhi").1).shownSpecialist =
      some "Neurologist" := by
  decide

/-- C3 amended: the Flask endpoint does return the structured error alone on
any fatal stage error (never a success payload); the Streamlit front-end
shows the error banner, but when the error arrives after classification the
already-computed prediction and specialist are displayed alongside it. -/
theorem C3_error_isolation (env : Env) (vocab s : List String) (l : String)
    (hs : s ≠ []) (hl : l ≠ "") :
    (∀ e, env.predict (featureVector vocab s) = Except.error e →
      (flaskPredict env vocab s l).1 = FlaskResp.serverError e ∧
      ∀ p sp docs,
        (flaskPredict env vocab s l).1 ≠ FlaskResp.success p sp docs) ∧
    (∀ pr e, env.predict (featureVector vocab s) = Except.ok pr →
      env.places (resolveSpecialist pr ++ " in " ++ l) = Except.error e →
      (flaskPredict env vocab s l).1 = FlaskResp.serverError e ∧
      (∀ p sp docs,
        (flaskPredict env vocab s l).1 ≠ FlaskResp.success p sp docs) ∧
      (pr ≠ "" →
        (stDisplay (stRun env vocab s l).1).errorShown =
          some ("An error occurred: " ++ e) ∧
        (stDisplay (stRun env vocab s l).1).shownPrediction = some pr ∧
        (stDisplay (stRun env vocab s l).1).shownSpecialist =
          some (resolveSpecialist pr))) := by
  constructor
  · intro e he
    have hf : (flaskPredict env vocab s l).1 = FlaskResp.serverError e := by
      rw [flaskPredict, if_neg (not_or.mpr ⟨hs, hl⟩), he]
    exact ⟨hf, fun p sp docs hc => by
      rw [hf] at hc; exact FlaskResp.noConfusion hc⟩
  · intro pr e hp hq
    have hf : (flaskPredict env vocab s l).1 = FlaskResp.serverError e := by
      rw [flaskPredict, if_neg (not_or.mpr ⟨hs, hl⟩), hp]
      dsimp only
      rw [hq]
    have hst : (stRun env vocab s l).1 =
        ⟨some pr, some (resolveSpecialist pr), [], [],
         some ("An error occurred: " ++ e)⟩ := by
      rw [stRun, hp]
      dsimp only
      rw [hq]
    refine ⟨hf, fun p sp docs hc => by
      rw [hf] at hc; exact FlaskResp.noConfusion hc, ?_⟩
    intro hpr
    have ht1 : truthyOpt (some pr) = true := by simp [truthyOpt, hpr]
    have ht2 : truthyOpt (some (resolveSpecialist pr)) = true := by
      simp [truthyOpt, resolveSpecialist_ne_empty pr]
    rw [hst]
    refine ⟨?_, ?_, ?_⟩ <;> simp [stDisplay, ht1, ht2]

/-- Witness for C3's amended theorem at the search-failure environment. -/
theorem C3_error_isolation_witness :
    (flaskPredict envSearchFails ["headache"] ["headache"] "Delhi").1 =
      FlaskResp.serverError "network down" ∧
    (stDisplay (stRun envSearchFails ["headache"] ["headache"] "Delhi").1).shownPrediction =
      some "Migraine" := by
  have h := (C3_error_isolation envSearchFails ["headache"] ["headache"] "Delhi"
    (by decide) (by decide)).2 "Migraine" "network down" rfl rfl
  exact ⟨h.1, (h.2.2 (by decide)).2.1⟩

/-- Environment whose external collaborators are never consulted. -/
def envUnusedC6 : Env :=
  ⟨fun _ => Except.error "unused", fun _ => Except.error "unused",
   fun _ => Except.error "unused"⟩

/-- C6 counterexample: a request with empty location *and* empty symptoms
fails with the missing-symptoms warning, not the location-input error —
the symptoms check runs first. -/
theorem C6_counterexample :
    (streamlitHandler envUnusedC6 ["headache"] [] "").1 =
      StResult.warnNoSymptoms ∧
    (streamlitHandler envUnusedC6 ["headache"] [] "").1 ≠
      StResult.warnNoLocation := by
  decide

/-- C6 amended: for every request with a non-empty symptom list and empty
location, both front-ends fail before issuing any place-search call — the
Streamlit page with its distinct location warning, the Flask endpoint with
the combined missing-input client error; when the symptom list is also
empty, the missing-symptoms warning takes precedence instead. -/
theorem C6_empty_location (env : Env) (vocab s : List String) (hs : s ≠ []) :
    (streamlitHandler env vocab s "").1 = StResult.warnNoLocation ∧
    (streamlitHandler env vocab s "").2 = [] ∧
    (flaskPredict env vocab s "").1 =
      FlaskResp.clientError "Missing symptoms or location." ∧
    (flaskPredict env vocab s "").2 = [] := by
  refine ⟨?_, ?_, ?_, ?_⟩
  · rw [streamlitHandler, if_neg hs, if_pos rfl]
  · rw [streamlitHandler, if_neg hs, if_pos rfl]
  · rw [flaskPredict, if_pos (Or.inr rfl)]
  · rw [flaskPredict, if_pos (Or.inr rfl)]

/-- Witness for C6's amended theorem. -/
theorem C6_empty_location_witness :
    (streamlitHandler envUnusedC6 ["headache"] ["headache"] "").1 =
      StResult.warnNoLocation ∧
    (flaskPredict envUnusedC6 ["headache"] ["headache"] "").2 = [] := by
  have h := C6_empty_location envUnusedC6 ["headache"] ["headache"] (by decide)
  exact ⟨h.1, h.2.2.2⟩

/-- Environment whose external collaborators are never consulted. -/
def envUnusedC7 : Env :=
  ⟨fun _ => Except.error "unused", fun _ => Except.error "unused",
   fun _ => Except.error "unused"⟩

/-- C7 counterexample: the Flask endpoint answers an empty-symptoms request
and an empty-location request with the *identical* client error, so no
distinct `NoSymptoms` error kind is signalled. -/
theorem C7_counterexample :
    (flaskPredict envUnusedC7 ["headache"] [] "Delhi").1 =
      FlaskResp.clientError "Missing symptoms or location." ∧
    (flaskPredict envUnusedC7 ["headache"] ["headache"] "").1 =
      FlaskResp.clientError "Missing symptoms or location." := by
  decide

/-- C7 amended: the guard (not the encoder itself) rejects exactly the empty
symptom sets — the Streamlit front-end with its distinct missing-symptoms
warning, the Flask endpoint with the combined missing-input client error
that does not distinguish empty symptoms from empty location — and the
encoder is total: it never fails and always yields a full-length vector. -/
theorem C7_empty_symptoms (env : Env) (vocab s : List String) (l : String) :
    ((streamlitHandler env vocab s l).1 = StResult.warnNoSymptoms ↔ s = []) ∧
    (s = [] → (flaskPredict env vocab s l).1 =
      FlaskResp.clientError "Missing symptoms or location.") ∧
    (model_input vocab s).length = vocab.length := by
  refine ⟨⟨?_, ?_⟩, ?_, ?_⟩
  · intro h
    by_contra hs
    rw [streamlitHandler, if_neg hs] at h
    by_cases hl : l = "" <;> simp [hl] at h
  · intro hs
    rw [streamlitHandler, if_pos hs]
  · intro hs
    rw [flaskPredict, if_pos (Or.inl hs)]
  · rw [model_input_eq]
    simp

/-- Witness for C7's amended theorem at an empty symptom set. -/
theorem C7_empty_symptoms_witness :
    (streamlitHandler envUnusedC7 ["headache"] [] "Delhi").1 =
      StResult.warnNoSymptoms ∧
    (flaskPredict envUnusedC7 ["headache"] [] "Delhi").1 =
      FlaskResp.clientError "Missing symptoms or location." := by
  have h := C7_empty_symptoms envUnusedC7 ["headache"] ([] : List String) "Delhi"
  exact ⟨h.1.mpr rfl, h.2.1 rfl⟩

end DoctorRec
